import Mathlib

/-!
Verification of the realtime traffic-analysis hook of the Vehicle-Counter
repository.  The definitions below are a shallow embedding of the first
`useTrafficAI` hook variant found in `src/components/LogPanel.tsx`
(lines 92-482): the tool-call interpreter (`processToolCall`), the log
buffer (`addLog`), the reset operation (`resetAnalysis`), the session
lifecycle handlers (`startStream` acquisition phase, `onopen`, `onerror`,
`stopStream`) and the inbound-audio playback scheduler of `onmessage`.

JavaScript numbers are modelled as rationals; `Number(x) || 0` is modelled
by `orZero` over `JSNum`, where `JSNum.nan` stands for any argument whose
numeric coercion is NaN (missing field, non-numeric string, ...).  Wall
clock instants are natural numbers; the output audio clock is rational.
Log-entry ids and wall-clock time labels are nondeterministic in the
source (`Math.random`, `new Date`) and are omitted from `LogEntry`; the
claims only inspect messages, categories and counts of entries.
-/

/-- Stream state enumeration, from `src/types` (`StreamState`). -/
inductive StreamState
  | IDLE
  | CONNECTING
  | ACTIVE
  | ERROR
deriving DecidableEq, Repr

/-- Log entry categories, from `src/types` (`LogEntry.type`). -/
inductive LogType
  | info
  | success
  | error
  | vehicle
  | transcript
deriving DecidableEq, Repr

/-- A log entry: message text and category.  The source also stores a random
id and a wall-clock time label, both nondeterministic and never inspected by
the properties below. -/
structure LogEntry where
  message : String
  ltype : LogType
deriving DecidableEq, Repr

/-- `addLog` (LogPanel.tsx first hook variant, lines 165-170): prepend the
new entry and keep at most the first 49 previous entries. -/
def addLog (logs : List LogEntry) (message : String) (t : LogType) : List LogEntry :=
  ⟨message, t⟩ :: logs.take 49

/-- Aggregate traffic statistics, from `src/types` (`TrafficStats`, the
four-class variant).  `density` is a plain string because the source stores
`fc.args.traffic_density` through an unchecked TypeScript cast.
`lastUpdated` is a wall-clock instant. -/
structure TrafficStats where
  twoWheelers : ℚ
  threeWheelers : ℚ
  fourWheelers : ℚ
  heavyVehicles : ℚ
  density : String
  lastUpdated : Nat
deriving DecidableEq, Repr

/-- The all-zero statistics created at hook start (lines 139-146). -/
def initStats (now : Nat) : TrafficStats :=
  ⟨0, 0, 0, 0, "LOW", now⟩

/-- The result of JavaScript `Number(x)` on a tool-call argument: a finite
rational value, or NaN (missing field, non-numeric string, ...). -/
inductive JSNum
  | val (q : ℚ)
  | nan
deriving DecidableEq, Repr

/-- `Number(x) || 0` (lines 177-180): NaN and 0 collapse to 0, every other
finite value — including negative ones — passes through unchanged. -/
def orZero : JSNum → ℚ
  | .val q => if q = 0 then 0 else q
  | .nan => 0

/-- `fc.args.traffic_density as 'LOW' | 'MEDIUM' | 'HIGH' || 'LOW'`
(line 181): the cast performs no runtime validation; only a falsy value
(absent argument or empty string) falls back to `"LOW"`. -/
def densityOrLow : Option String → String
  | none => "LOW"
  | some s => if s = "" then "LOW" else s

/-- One structured function call from the remote session.  Count arguments
carry their JavaScript numeric coercion; `traffic_density` and
`description` are string-or-absent. -/
structure FunctionCall where
  name : String
  id : String
  two_wheelers : JSNum
  three_wheelers : JSNum
  four_wheelers : JSNum
  heavy_vehicles : JSNum
  traffic_density : Option String
  description : Option String
deriving DecidableEq, Repr

/-- One acknowledgment sent through `session.sendToolResponse`
(lines 208-216): echoes the call id and name with the success payload. -/
structure Ack where
  id : String
  name : String
  result : String
deriving DecidableEq, Repr

/-- Rendering of a rational count inside a log message. -/
def ratStr (q : ℚ) : String := toString q

/-- The `parts` array built at lines 194-198: JavaScript truthiness on a
number keeps every nonzero coerced count. -/
def partsList (newTwo newThree newFour newHeavy : ℚ) : List String :=
  (if newTwo ≠ 0 then [ratStr newTwo ++ " Bike(s)"] else []) ++
  (if newThree ≠ 0 then [ratStr newThree ++ " Auto(s)"] else []) ++
  (if newFour ≠ 0 then [ratStr newFour ++ " Car(s)"] else []) ++
  (if newHeavy ≠ 0 then [ratStr newHeavy ++ " Truck/Bus"] else [])

/-- `desc ? parts.join + desc : parts.join` (line 200); an empty description
string is falsy in JavaScript. -/
def detectionMsg (newTwo newThree newFour newHeavy : ℚ) (desc : Option String) : String :=
  let joined := String.intercalate ", " (partsList newTwo newThree newFour newHeavy)
  match desc with
  | some d => if d = "" then joined else joined ++ " - " ++ d
  | none => joined

/-- Result of interpreting tool calls: new statistics, new log list and the
acknowledgments issued (in issue order) through the live session promise. -/
structure ToolCallResult where
  stats : TrafficStats
  logs : List LogEntry
  acks : List Ack
deriving DecidableEq, Repr

/-- Interpretation of one function call (body of the `forEach` at
lines 175-218).  Only the known name `report_vehicle_detection` is acted
upon; the acknowledgment is sent inside that branch, so an unknown name
produces no acknowledgment.  If any coerced count is strictly positive all
deltas are added, density is overwritten, the timestamp is refreshed and one
`vehicle` log entry is appended; otherwise only the density field changes. -/
def processOneCall (now : Nat) (st : TrafficStats) (logs : List LogEntry)
    (fc : FunctionCall) : ToolCallResult :=
  if fc.name = "report_vehicle_detection" then
    let newTwo := orZero fc.two_wheelers
    let newThree := orZero fc.three_wheelers
    let newFour := orZero fc.four_wheelers
    let newHeavy := orZero fc.heavy_vehicles
    let density := densityOrLow fc.traffic_density
    if 0 < newTwo ∨ 0 < newThree ∨ 0 < newFour ∨ 0 < newHeavy then
      { stats := ⟨st.twoWheelers + newTwo, st.threeWheelers + newThree,
                  st.fourWheelers + newFour, st.heavyVehicles + newHeavy,
                  density, now⟩,
        logs := addLog logs
          ("Detected: " ++ detectionMsg newTwo newThree newFour newHeavy fc.description)
          .vehicle,
        acks := [⟨fc.id, fc.name, "OK"⟩] }
    else
      { stats := { st with density := density }, logs := logs,
        acks := [⟨fc.id, fc.name, "OK"⟩] }
  else
    { stats := st, logs := logs, acks := [] }

/-- `processToolCall` (lines 172-219): the early return on a missing or
empty array is the `[]` case; otherwise the calls are interpreted in array
order, threading statistics and logs, accumulating acknowledgments in issue
order. -/
def processToolCall (now : Nat) (st : TrafficStats) (logs : List LogEntry) :
    List FunctionCall → ToolCallResult
  | [] => ⟨st, logs, []⟩
  | fc :: rest =>
    let r := processOneCall now st logs fc
    let r2 := processToolCall now r.stats r.logs rest
    ⟨r2.stats, r2.logs, r.acks ++ r2.acks⟩

/-- State of an `AudioContext`: once created it is either running or closed;
`stopStream` closes the contexts but never nulls their refs. -/
inductive CtxState
  | running
  | closed
deriving DecidableEq, Repr

/-- Close an audio context ref as `stopStream` does (lines 459-460): no-op
when the ref is null or the context is already closed. -/
def closeCtx : Option CtxState → Option CtxState :=
  Option.map (fun _ => CtxState.closed)

/-- The observable state of the `useTrafficAI` hook together with the device
resources its refs own.  `videoEl` / `canvasEl` record whether the DOM
element refs are mounted (non-null); `videoSrcAttached` models
`videoRef.current.srcObject` being set; `mediaStreamLive` models a
`MediaStream` handle with running tracks held in `streamRef`;
`frameTimer` models an active `setInterval` handle in `frameIntervalRef`;
`sessionPromiseSet` models a non-null `sessionPromiseRef`;
`audioWired` models the microphone script processor being connected;
`nextStartTime` is the playback clock `nextStartTimeRef`. -/
structure HookState where
  streamState : StreamState
  stats : TrafficStats
  logs : List LogEntry
  volume : ℚ
  error : Option String
  mediaStreamLive : Bool
  videoEl : Bool
  canvasEl : Bool
  videoSrcAttached : Bool
  frameTimer : Bool
  inputCtx : Option CtxState
  outputCtx : Option CtxState
  nextStartTime : ℚ
  sessionPromiseSet : Bool
  audioWired : Bool
deriving DecidableEq, Repr

/-- The hook's initial state (component mounted, nothing started). -/
def initState : HookState :=
  { streamState := .IDLE, stats := initStats 0, logs := [], volume := 0,
    error := none, mediaStreamLive := false, videoEl := true, canvasEl := true,
    videoSrcAttached := false, frameTimer := false, inputCtx := none,
    outputCtx := none, nextStartTime := 0, sessionPromiseSet := false,
    audioWired := false }

/-- `stopStream` (lines 446-466): stop and null the media stream, detach the
video source, cancel the frame timer, close both audio contexts, transition
to Idle, zero the volume, clear the error, and log one info entry.  The
playback clock `nextStartTimeRef` is NOT touched, and `sessionPromiseRef`
is left as-is. -/
def stopStream (s : HookState) : HookState :=
  { s with
    mediaStreamLive := false,
    videoSrcAttached := false,
    frameTimer := false,
    inputCtx := closeCtx s.inputCtx,
    outputCtx := closeCtx s.outputCtx,
    streamState := .IDLE,
    volume := 0,
    error := none,
    logs := addLog s.logs "Analysis stopped" .info }

/-- `resetAnalysis` (lines 232-243): replace the statistics wholesale with
all-zero values, clear the log list, then log one info entry.  Session
state, stream state and error are untouched. -/
def resetAnalysis (now : Nat) (s : HookState) : HookState :=
  { s with
    stats := initStats now,
    logs := addLog [] "Statistics reset" .info }

/-- `err.message || "Connection failed. Check API Key or Network."`
(line 391). -/
def errMsgOr (m : String) : String :=
  if m = "" then "Connection failed. Check API Key or Network." else m

/-- The part of the `onerror` callback (lines 389-395) that runs before
`stopStream()`: log one error entry, set the observable error message, set
the stream state to Error. -/
def onerrorPre (m : String) (s : HookState) : HookState :=
  { s with
    logs := addLog s.logs ("Error: " ++ errMsgOr m) .error,
    error := some (errMsgOr m),
    streamState := .ERROR }

/-- The whole `onerror` callback (lines 389-396): the pre-phase followed by
a full `stopStream()`. -/
def onerrorHandler (m : String) (s : HookState) : HookState :=
  stopStream (onerrorPre m s)

/-- The successful acquisition phase of `startStream` (lines 246-279, up to
registering `ai.live.connect`): clear the error, enter Connecting, create
both audio contexts, acquire the media stream, attach it to the mounted
video element, and store the session promise.  No log entry is written in
this phase. -/
def startAcquire (s : HookState) : HookState :=
  { s with
    error := none,
    streamState := .CONNECTING,
    inputCtx := some .running,
    outputCtx := some .running,
    mediaStreamLive := true,
    videoSrcAttached := s.videoEl,
    sessionPromiseSet := true }

/-- `startVideoProcessing` (lines 410-444): returns early when either DOM
ref is null; otherwise clears any prior interval and installs a fresh one —
the net effect on the resource state is an active frame timer. -/
def startVideoProcessing (s : HookState) : HookState :=
  if s.videoEl && s.canvasEl then { s with frameTimer := true } else s

/-- The `onopen` callback (lines 317-340): unconditionally set the state to
Active and log a success entry; wire the microphone processor only when both
`inputAudioContextRef.current` and `streamRef.current` are non-null (a
closed-but-created context still counts as non-null); then start the frame
sampler.  There is no liveness guard against a `stopStream` that completed
while the connection was still opening. -/
def onopenHandler (mode : String) (s : HookState) : HookState :=
  let s1 := { s with
    streamState := .ACTIVE,
    logs := addLog s.logs ("Session started (" ++ mode ++ " camera)") .success }
  let s2 := if s1.inputCtx.isSome && s1.mediaStreamLive then
      { s1 with audioWired := true }
    else s1
  startVideoProcessing s2

/-- One inbound audio chunk for the playback scheduler: `t` is the output
clock's `currentTime` when the chunk's message is handled, `d` the decoded
buffer's duration. -/
structure Chunk where
  t : ℚ
  d : ℚ
deriving DecidableEq, Repr

/-- The scheduled start time of a chunk (line 360 followed by line 382):
`nextStartTimeRef.current = Math.max(nextStartTimeRef.current,
ctx.currentTime)` and the buffer is started at that value. -/
def schedStart (ns : ℚ) (c : Chunk) : ℚ := max ns c.t

/-- The playback clock after a chunk (line 383):
`nextStartTimeRef.current += buffer.duration`. -/
def schedNext (ns : ℚ) (c : Chunk) : ℚ := schedStart ns c + c.d

/-- The (start time, duration) pairs produced by handling a list of chunks
in arrival order, starting from playback clock `ns`. -/
def schedPairs (ns : ℚ) : List Chunk → List (ℚ × ℚ)
  | [] => []
  | c :: cs => (schedStart ns c, c.d) :: schedPairs (schedNext ns c) cs

/-- The playback clock after handling a list of chunks. -/
def schedFinal (ns : ℚ) : List Chunk → ℚ
  | [] => ns
  | c :: cs => schedFinal (schedNext ns c) cs

lemma processOneCall_counters_le (now : Nat) (st : TrafficStats)
    (logs : List LogEntry) (fc : FunctionCall)
    (h2 : 0 ≤ orZero fc.two_wheelers) (h3 : 0 ≤ orZero fc.three_wheelers)
    (h4 : 0 ≤ orZero fc.four_wheelers) (h5 : 0 ≤ orZero fc.heavy_vehicles) :
    st.twoWheelers ≤ (processOneCall now st logs fc).stats.twoWheelers ∧
    st.threeWheelers ≤ (processOneCall now st logs fc).stats.threeWheelers ∧
    st.fourWheelers ≤ (processOneCall now st logs fc).stats.fourWheelers ∧
    st.heavyVehicles ≤ (processOneCall now st logs fc).stats.heavyVehicles := by
  unfold processOneCall
  split
  · dsimp only
    split
    · refine ⟨?_, ?_, ?_, ?_⟩ <;> simp <;> linarith
    · simp
  · simp

/-- C3 (amended): every count field is coerced through `Number(x) || 0`,
which turns non-numeric or missing values into 0 but does NOT clamp negative
numeric values; provided every coerced count of the batch is non-negative,
each of the four aggregate counters after processing is greater than or
equal to its value before processing. -/
theorem counters_monotone_nonneg (now : Nat) (st : TrafficStats)
    (logs : List LogEntry) (calls : List FunctionCall)
    (h : ∀ fc ∈ calls, 0 ≤ orZero fc.two_wheelers ∧ 0 ≤ orZero fc.three_wheelers ∧
         0 ≤ orZero fc.four_wheelers ∧ 0 ≤ orZero fc.heavy_vehicles) :
    st.twoWheelers ≤ (processToolCall now st logs calls).stats.twoWheelers ∧
    st.threeWheelers ≤ (processToolCall now st logs calls).stats.threeWheelers ∧
    st.fourWheelers ≤ (processToolCall now st logs calls).stats.fourWheelers ∧
    st.heavyVehicles ≤ (processToolCall now st logs calls).stats.heavyVehicles := by
  induction calls generalizing st logs with
  | nil => simp [processToolCall]
  | cons fc rest ih =>
    have h1 := h fc (List.mem_cons_self fc rest)
    have hrest : ∀ f ∈ rest, 0 ≤ orZero f.two_wheelers ∧ 0 ≤ orZero f.three_wheelers ∧
        0 ≤ orZero f.four_wheelers ∧ 0 ≤ orZero f.heavy_vehicles :=
      fun f hf => h f (List.mem_cons_of_mem fc hf)
    have step := processOneCall_counters_le now st logs fc h1.1 h1.2.1 h1.2.2.1 h1.2.2.2
    have tail := ih (processOneCall now st logs fc).stats (processOneCall now st logs fc).logs hrest
    simp only [processToolCall]
    exact ⟨le_trans step.1 tail.1, le_trans step.2.1 tail.2.1,
           le_trans step.2.2.1 tail.2.2.1, le_trans step.2.2.2 tail.2.2.2⟩

/-- C3 witness: a concrete batch with non-negative coerced counts, starting
from the all-zero statistics. -/
theorem counters_monotone_nonneg_witness :
    (initStats 0).twoWheelers ≤ (processToolCall 5 (initStats 0) []
      [⟨"report_vehicle_detection", "w1", .val 2, .nan, .val 1, .nan, some "MEDIUM", none⟩]).stats.twoWheelers ∧
    (initStats 0).threeWheelers ≤ (processToolCall 5 (initStats 0) []
      [⟨"report_vehicle_detection", "w1", .val 2, .nan, .val 1, .nan, some "MEDIUM", none⟩]).stats.threeWheelers ∧
    (initStats 0).fourWheelers ≤ (processToolCall 5 (initStats 0) []
      [⟨"report_vehicle_detection", "w1", .val 2, .nan, .val 1, .nan, some "MEDIUM", none⟩]).stats.fourWheelers ∧
    (initStats 0).heavyVehicles ≤ (processToolCall 5 (initStats 0) []
      [⟨"report_vehicle_detection", "w1", .val 2, .nan, .val 1, .nan, some "MEDIUM", none⟩]).stats.heavyVehicles :=
  counters_monotone_nonneg 5 (initStats 0) []
    [⟨"report_vehicle_detection", "w1", .val 2, .nan, .val 1, .nan, some "MEDIUM", none⟩]
    (by decide)

/-- C3 counterexample: the claim as stated is false — a negative numeric
count passes the coercion unchanged, so a call with `two_wheelers = -1` and
`four_wheelers = 1` decrements the two-wheeler counter from 5 to 4. -/
theorem counters_can_decrease_on_negative_input :
    (processOneCall 7 ⟨5, 0, 0, 0, "LOW", 0⟩ []
      ⟨"report_vehicle_detection", "id1", .val (-1), .nan, .val 1, .nan, some "LOW", none⟩).stats.twoWheelers
      < (⟨5, 0, 0, 0, "LOW", 0⟩ : TrafficStats).twoWheelers := by
  norm_num [processOneCall, orZero]

/-- C4: a known call whose coerced counts are all zero updates only the
density field of the statistics — the four counters and the `lastUpdated`
timestamp keep their previous values, the log list is unchanged, so in
particular no `vehicle` entry is appended. -/
theorem zero_counts_updates_density_only (now : Nat) (st : TrafficStats)
    (logs : List LogEntry) (fc : FunctionCall)
    (hname : fc.name = "report_vehicle_detection")
    (h2 : orZero fc.two_wheelers = 0) (h3 : orZero fc.three_wheelers = 0)
    (h4 : orZero fc.four_wheelers = 0) (h5 : orZero fc.heavy_vehicles = 0) :
    (processOneCall now st logs fc).stats.twoWheelers = st.twoWheelers ∧
    (processOneCall now st logs fc).stats.threeWheelers = st.threeWheelers ∧
    (processOneCall now st logs fc).stats.fourWheelers = st.fourWheelers ∧
    (processOneCall now st logs fc).stats.heavyVehicles = st.heavyVehicles ∧
    (processOneCall now st logs fc).stats.lastUpdated = st.lastUpdated ∧
    (processOneCall now st logs fc).stats.density = densityOrLow fc.traffic_density ∧
    (processOneCall now st logs fc).logs = logs := by
  simp [processOneCall, hname, h2, h3, h4, h5]

/-- C4 witness: a concrete known call with `two_wheelers = 0` and the three
other counts missing, against non-trivial prior statistics. -/
theorem zero_counts_updates_density_only_witness :
    (processOneCall 10 ⟨1, 2, 3, 4, "LOW", 9⟩ []
      ⟨"report_vehicle_detection", "z1", .val 0, .nan, .nan, .nan, some "HIGH", none⟩).stats.twoWheelers
      = (⟨1, 2, 3, 4, "LOW", 9⟩ : TrafficStats).twoWheelers ∧
    (processOneCall 10 ⟨1, 2, 3, 4, "LOW", 9⟩ []
      ⟨"report_vehicle_detection", "z1", .val 0, .nan, .nan, .nan, some "HIGH", none⟩).stats.threeWheelers
      = (⟨1, 2, 3, 4, "LOW", 9⟩ : TrafficStats).threeWheelers ∧
    (processOneCall 10 ⟨1, 2, 3, 4, "LOW", 9⟩ []
      ⟨"report_vehicle_detection", "z1", .val 0, .nan, .nan, .nan, some "HIGH", none⟩).stats.fourWheelers
      = (⟨1, 2, 3, 4, "LOW", 9⟩ : TrafficStats).fourWheelers ∧
    (processOneCall 10 ⟨1, 2, 3, 4, "LOW", 9⟩ []
      ⟨"report_vehicle_detection", "z1", .val 0, .nan, .nan, .nan, some "HIGH", none⟩).stats.heavyVehicles
      = (⟨1, 2, 3, 4, "LOW", 9⟩ : TrafficStats).heavyVehicles ∧
    (processOneCall 10 ⟨1, 2, 3, 4, "LOW", 9⟩ []
      ⟨"report_vehicle_detection", "z1", .val 0, .nan, .nan, .nan, some "HIGH", none⟩).stats.lastUpdated
      = (⟨1, 2, 3, 4, "LOW", 9⟩ : TrafficStats).lastUpdated ∧
    (processOneCall 10 ⟨1, 2, 3, 4, "LOW", 9⟩ []
      ⟨"report_vehicle_detection", "z1", .val 0, .nan, .nan, .nan, some "HIGH", none⟩).stats.density
      = densityOrLow (some "HIGH") ∧
    (processOneCall 10 ⟨1, 2, 3, 4, "LOW", 9⟩ []
      ⟨"report_vehicle_detection", "z1", .val 0, .nan, .nan, .nan, some "HIGH", none⟩).logs = [] :=
  zero_counts_updates_density_only 10 ⟨1, 2, 3, 4, "LOW", 9⟩ []
    ⟨"report_vehicle_detection", "z1", .val 0, .nan, .nan, .nan, some "HIGH", none⟩
    rfl (by decide) (by decide) (by decide) (by decide)

/-- The two-call scenario of the aggregation claim: counts {two:2, four:1}
then {two:1, three:0, four:0, heavy:3}. -/
def aggregationCalls : List FunctionCall :=
  [⟨"report_vehicle_detection", "call-1", .val 2, .nan, .val 1, .nan, some "LOW", none⟩,
   ⟨"report_vehicle_detection", "call-2", .val 1, .val 0, .val 0, .val 3, some "HIGH", none⟩]

/-- C5: starting from all-zero statistics, the two consecutive calls
{two:2, four:1} then {two:1, three:0, four:0, heavy:3} yield cumulative
counters two = 3, three = 0, four = 1, heavy = 3, append exactly two
`vehicle` log entries and issue exactly the two acknowledgments, in order;
the density is overwritten by each call (final value the second call's) and
the timestamp is refreshed. -/
theorem aggregation_scenario :
    (processToolCall 77 (initStats 0) [] aggregationCalls).stats.twoWheelers = 3 ∧
    (processToolCall 77 (initStats 0) [] aggregationCalls).stats.threeWheelers = 0 ∧
    (processToolCall 77 (initStats 0) [] aggregationCalls).stats.fourWheelers = 1 ∧
    (processToolCall 77 (initStats 0) [] aggregationCalls).stats.heavyVehicles = 3 ∧
    ((processToolCall 77 (initStats 0) [] aggregationCalls).logs.countP
      (fun e => e.ltype = LogType.vehicle)) = 2 ∧
    (processToolCall 77 (initStats 0) [] aggregationCalls).acks =
      [⟨"call-1", "report_vehicle_detection", "OK"⟩,
       ⟨"call-2", "report_vehicle_detection", "OK"⟩] ∧
    (processToolCall 77 (initStats 0) [] aggregationCalls).stats.density = "HIGH" ∧
    (processToolCall 77 (initStats 0) [] aggregationCalls).stats.lastUpdated = 77 := by
  norm_num [aggregationCalls, processToolCall, processOneCall, orZero, densityOrLow,
    addLog, initStats, List.countP, List.countP.go]
  decide

lemma processOneCall_acks (now : Nat) (st : TrafficStats) (logs : List LogEntry)
    (fc : FunctionCall) :
    (processOneCall now st logs fc).acks =
      if fc.name = "report_vehicle_detection" then [⟨fc.id, fc.name, "OK"⟩] else ([] : List Ack) := by
  unfold processOneCall
  split
  · dsimp only
    split <;> rfl
  · simp

/-- C6 (amended): the calls of a batch are interpreted in array order and
the acknowledgments issued are exactly one per call bearing the known name
`report_vehicle_detection`, in that order, each echoing the call's id and
name with the success payload, regardless of the counts carried; a call with
an unknown name is skipped without error and WITHOUT an acknowledgment,
because the `sendToolResponse` call sits inside the known-name branch. -/
theorem acks_echo_known_calls_in_order (now : Nat) (st : TrafficStats)
    (logs : List LogEntry) (calls : List FunctionCall) :
    (processToolCall now st logs calls).acks =
      calls.filterMap (fun fc =>
        if fc.name = "report_vehicle_detection"
        then some ⟨fc.id, fc.name, "OK"⟩ else none) := by
  induction calls generalizing st logs with
  | nil => rfl
  | cons fc rest ih =>
    simp only [processToolCall, List.filterMap_cons, processOneCall_acks, ih]
    split <;> simp

/-- C6 counterexample: the claim as stated is false — a received call whose
name is unknown (here the other hook variant's tool name) produces zero
acknowledgments, not one. -/
theorem unknown_call_gets_no_ack :
    (processToolCall 0 (initStats 0) []
      [⟨"update_traffic_count", "u1", .val 1, .nan, .nan, .nan, none, none⟩]).acks = [] ∧
    ([⟨"update_traffic_count", "u1", .val 1, .nan, .nan, .nan, none, none⟩] :
      List FunctionCall).length = 1 := by
  constructor
  · simp [processToolCall, processOneCall]
  · rfl

/-- C10 (amended): the stored density is always exactly
`densityOrLow` of the argument — the fallback to `"LOW"` fires only for an
absent or empty (falsy) argument, with no validation of other strings — so
whenever the argument is absent, empty, or one of the three declared enum
values, the resulting density field is one of `LOW`, `MEDIUM`, `HIGH`. -/
theorem density_defaults_and_enum (now : Nat) (st : TrafficStats)
    (logs : List LogEntry) (fc : FunctionCall)
    (hname : fc.name = "report_vehicle_detection")
    (harg : fc.traffic_density = none ∨ fc.traffic_density = some "" ∨
            fc.traffic_density = some "LOW" ∨ fc.traffic_density = some "MEDIUM" ∨
            fc.traffic_density = some "HIGH") :
    (processOneCall now st logs fc).stats.density = densityOrLow fc.traffic_density ∧
    ((processOneCall now st logs fc).stats.density = "LOW" ∨
     (processOneCall now st logs fc).stats.density = "MEDIUM" ∨
     (processOneCall now st logs fc).stats.density = "HIGH") := by
  have hd : (processOneCall now st logs fc).stats.density = densityOrLow fc.traffic_density := by
    unfold processOneCall
    rw [if_pos hname]
    dsimp only
    split <;> rfl
  refine ⟨hd, ?_⟩
  rw [hd]
  rcases harg with h | h | h | h | h <;> rw [h] <;> decide

/-- C10 witness: a concrete call carrying the enum value `MEDIUM`. -/
theorem density_defaults_and_enum_witness :
    (processOneCall 3 (initStats 0) []
      ⟨"report_vehicle_detection", "dw", .nan, .nan, .nan, .nan, some "MEDIUM", none⟩).stats.density
      = densityOrLow (some "MEDIUM") ∧
    ((processOneCall 3 (initStats 0) []
       ⟨"report_vehicle_detection", "dw", .nan, .nan, .nan, .nan, some "MEDIUM", none⟩).stats.density = "LOW" ∨
     (processOneCall 3 (initStats 0) []
       ⟨"report_vehicle_detection", "dw", .nan, .nan, .nan, .nan, some "MEDIUM", none⟩).stats.density = "MEDIUM" ∨
     (processOneCall 3 (initStats 0) []
       ⟨"report_vehicle_detection", "dw", .nan, .nan, .nan, .nan, some "MEDIUM", none⟩).stats.density = "HIGH") :=
  density_defaults_and_enum 3 (initStats 0) []
    ⟨"report_vehicle_detection", "dw", .nan, .nan, .nan, .nan, some "MEDIUM", none⟩
    rfl (by decide)

/-- C10 counterexample: the claim as stated is false — a present but
invalid density string is stored verbatim through the unchecked cast, so
the density field is not always one of the three enum values. -/
theorem density_stores_invalid_value :
    ¬ ((processOneCall 0 (initStats 0) []
         ⟨"report_vehicle_detection", "d1", .nan, .nan, .nan, .nan, some "EXTREME", none⟩).stats.density = "LOW" ∨
       (processOneCall 0 (initStats 0) []
         ⟨"report_vehicle_detection", "d1", .nan, .nan, .nan, .nan, some "EXTREME", none⟩).stats.density = "MEDIUM" ∨
       (processOneCall 0 (initStats 0) []
         ⟨"report_vehicle_detection", "d1", .nan, .nan, .nan, .nan, some "EXTREME", none⟩).stats.density = "HIGH") := by
  simp [processOneCall, orZero, densityOrLow, initStats]

/-- C7 (amended): after `resetAnalysis`, all four counters are 0, the
density is at the lowest level and the log list holds exactly the single
info entry appended by reset itself (`setLogs([])` is immediately followed
by `addLog('Statistics reset')`, so the list is not empty); the stream
state, the session handle and the error are untouched. -/
theorem reset_zeroes_stats_single_log (now : Nat) (s : HookState) :
    (resetAnalysis now s).stats.twoWheelers = 0 ∧
    (resetAnalysis now s).stats.threeWheelers = 0 ∧
    (resetAnalysis now s).stats.fourWheelers = 0 ∧
    (resetAnalysis now s).stats.heavyVehicles = 0 ∧
    (resetAnalysis now s).stats.density = "LOW" ∧
    (resetAnalysis now s).logs = [⟨"Statistics reset", LogType.info⟩] ∧
    (resetAnalysis now s).streamState = s.streamState ∧
    (resetAnalysis now s).sessionPromiseSet = s.sessionPromiseSet ∧
    (resetAnalysis now s).error = s.error := by
  simp [resetAnalysis, addLog, initStats]

/-- C7 counterexample: the claim as stated is false — after `reset()` the
log sequence is not empty: it contains the "Statistics reset" info entry. -/
theorem reset_log_not_empty :
    (resetAnalysis 0 initState).logs ≠ [] := by
  simp [resetAnalysis, addLog, initState]

/-- C9 (amended): one `stopStream` call stops the media tracks and nulls the
stream handle, detaches the video source, cancels the frame timer, closes
both audio contexts (a no-op when absent or already closed), zeroes the
volume, clears any transient error and transitions to Idle — but the
playback clock `nextStartTimeRef` is left UNCHANGED, not reset to zero; a
second `stopStream` call changes nothing except appending one more info log
entry. -/
theorem stop_idempotent_teardown (s : HookState) :
    (stopStream s).mediaStreamLive = false ∧
    (stopStream s).videoSrcAttached = false ∧
    (stopStream s).frameTimer = false ∧
    (stopStream s).inputCtx = closeCtx s.inputCtx ∧
    (stopStream s).outputCtx = closeCtx s.outputCtx ∧
    (stopStream s).inputCtx ≠ some CtxState.running ∧
    (stopStream s).outputCtx ≠ some CtxState.running ∧
    (stopStream s).volume = 0 ∧
    (stopStream s).nextStartTime = s.nextStartTime ∧
    (stopStream s).error = none ∧
    (stopStream s).streamState = StreamState.IDLE ∧
    stopStream (stopStream s) =
      { stopStream s with logs := addLog (stopStream s).logs "Analysis stopped" LogType.info } := by
  refine ⟨rfl, rfl, rfl, rfl, rfl, ?_, ?_, rfl, rfl, rfl, rfl, ?_⟩
  · cases h : s.inputCtx <;> simp [stopStream, closeCtx, h]
  · cases h : s.outputCtx <;> simp [stopStream, closeCtx, h]
  · simp only [stopStream, closeCtx]
    cases s.inputCtx <;> cases s.outputCtx <;> rfl

/-- C9 counterexample: the claim as stated is false — `stopStream` does not
reset the playback clock: starting from a state whose `nextStartTime` is 5,
it is still 5 (not 0) after the call. -/
theorem stop_does_not_reset_playback_clock :
    (stopStream { initState with nextStartTime := 5 }).nextStartTime ≠ 0 := by
  simp [stopStream, initState]

/-- C1 (amended): when `onerror` fires with a non-empty message `m`, the
handler appends exactly one error log entry carrying `m`, transiently sets
the stream state to Error with observable error message `m`, and then
forces a full teardown via `stopStream()`; because `stopStream` runs last,
the final state is Idle with the error message cleared, the resources
released, and one extra info entry ("Analysis stopped") on top of the
single error entry. -/
theorem onerror_teardown_amended (m : String) (s : HookState) (h : m ≠ "") :
    (onerrorPre m s).streamState = StreamState.ERROR ∧
    (onerrorPre m s).error = some m ∧
    onerrorHandler m s = stopStream (onerrorPre m s) ∧
    (onerrorHandler m s).streamState = StreamState.IDLE ∧
    (onerrorHandler m s).error = none ∧
    (onerrorHandler m s).logs =
      ⟨"Analysis stopped", LogType.info⟩ :: ⟨"Error: " ++ m, LogType.error⟩ :: s.logs.take 48 ∧
    (onerrorHandler m s).mediaStreamLive = false ∧
    (onerrorHandler m s).frameTimer = false := by
  refine ⟨rfl, ?_, rfl, rfl, rfl, ?_, rfl, rfl⟩
  · simp [onerrorPre, errMsgOr, h]
  · simp [onerrorHandler, onerrorPre, stopStream, addLog, errMsgOr, h, List.take_take]

/-- C1 witness: the handler applied to the error message "boom" in the
freshly mounted state. -/
theorem onerror_teardown_amended_witness :
    (onerrorPre "boom" initState).streamState = StreamState.ERROR ∧
    (onerrorPre "boom" initState).error = some "boom" ∧
    onerrorHandler "boom" initState = stopStream (onerrorPre "boom" initState) ∧
    (onerrorHandler "boom" initState).streamState = StreamState.IDLE ∧
    (onerrorHandler "boom" initState).error = none ∧
    (onerrorHandler "boom" initState).logs =
      ⟨"Analysis stopped", LogType.info⟩ :: ⟨"Error: " ++ "boom", LogType.error⟩ :: initState.logs.take 48 ∧
    (onerrorHandler "boom" initState).mediaStreamLive = false ∧
    (onerrorHandler "boom" initState).frameTimer = false :=
  onerror_teardown_amended "boom" initState (by decide)

/-- C1 counterexample: the claim as stated is false — after the `onerror`
callback completes (including the `stopStream()` it triggers), the stream
state is NOT Error and the observable error message is NOT the remote
message, because `stopStream` transitions to Idle and clears the error. -/
theorem onerror_final_state_not_error :
    (onerrorHandler "boom" initState).streamState ≠ StreamState.ERROR ∧
    (onerrorHandler "boom" initState).error ≠ some "boom" := by
  constructor
  · simp [onerrorHandler, onerrorPre, stopStream]
  · simp [onerrorHandler, onerrorPre, stopStream]

/-- C2 (code defect, evaluated): `start()` is interrupted by a completed
`stop()` before the remote open callback fires; the `onopen` callback has no
liveness guard, so when it later runs it still marks the stream Active and
re-installs the frame-sampling timer on the mounted video/canvas elements,
even though the media resources were already released. -/
theorem open_after_stop_goes_active :
    (onopenHandler "environment" (stopStream (startAcquire initState))).streamState
      = StreamState.ACTIVE ∧
    (onopenHandler "environment" (stopStream (startAcquire initState))).frameTimer = true ∧
    (onopenHandler "environment" (stopStream (startAcquire initState))).mediaStreamLive = false ∧
    (stopStream (startAcquire initState)).streamState = StreamState.IDLE := by
  refine ⟨?_, ?_, ?_, rfl⟩ <;>
    simp [onopenHandler, startVideoProcessing, stopStream, startAcquire, initState, closeCtx, addLog]

lemma schedPairs_head_start_ge (ns : ℚ) (cs : List Chunk) :
    ∀ p ∈ (schedPairs ns cs).head?, ns ≤ p.1 := by
  cases cs with
  | nil => simp [schedPairs]
  | cons c rest =>
    intro p hp
    simp only [schedPairs, List.head?_cons, Option.mem_def, Option.some_inj] at hp
    subst hp
    exact le_max_left ns c.t

lemma schedPairs_chain (cs : List Chunk) :
    ∀ ns : ℚ, (∀ c ∈ cs, 0 ≤ c.d) →
    List.Chain' (fun p q : ℚ × ℚ => p.1 + p.2 ≤ q.1 ∧ p.1 ≤ q.1) (schedPairs ns cs) := by
  induction cs with
  | nil => intro ns _; simp [schedPairs]
  | cons c rest ih =>
    intro ns h
    have hd : 0 ≤ c.d := h c (List.mem_cons_self c rest)
    have hr : ∀ c2 ∈ rest, 0 ≤ c2.d := fun c2 hc => h c2 (List.mem_cons_of_mem c hc)
    rw [schedPairs]
    refine List.chain'_cons'.mpr ⟨?_, ih (schedNext ns c) hr⟩
    intro q hq
    have hq1 : schedNext ns c ≤ q.1 := schedPairs_head_start_ge (schedNext ns c) rest q hq
    exact ⟨hq1, le_trans (le_add_of_nonneg_right hd) hq1⟩

lemma schedFinal_mono (cs : List Chunk) :
    ∀ ns : ℚ, (∀ c ∈ cs, 0 ≤ c.d) → ns ≤ schedFinal ns cs := by
  induction cs with
  | nil => intro ns _; simp [schedFinal]
  | cons c rest ih =>
    intro ns h
    have hd : 0 ≤ c.d := h c (List.mem_cons_self c rest)
    have hr : ∀ c2 ∈ rest, 0 ≤ c2.d := fun c2 hc => h c2 (List.mem_cons_of_mem c hc)
    rw [schedFinal]
    exact le_trans (le_trans (le_max_left ns c.t) (le_add_of_nonneg_right hd))
      (ih (schedNext ns c) hr)

/-- C8: for inbound audio chunks handled in arrival order with non-negative
buffer durations, each chunk's scheduled start time is
`max(nextStartTime, clock-at-handling)`, the sequence of (start, duration)
pairs is gapless-sequential (each start ≥ previous start + previous
duration), start times are non-decreasing, and the playback clock
`nextStartTime` never decreases across the whole batch. -/
theorem audio_scheduler_invariants (ns x : ℚ) (c0 : Chunk) (cs : List Chunk)
    (h : ∀ c ∈ cs, 0 ≤ c.d) :
    schedStart x c0 = max x c0.t ∧
    List.Chain' (fun p q : ℚ × ℚ => p.1 + p.2 ≤ q.1) (schedPairs ns cs) ∧
    List.Chain' (fun p q : ℚ × ℚ => p.1 ≤ q.1) (schedPairs ns cs) ∧
    ns ≤ schedFinal ns cs := by
  have hc := schedPairs_chain cs ns h
  exact ⟨rfl, hc.imp (fun _ _ h2 => h2.1), hc.imp (fun _ _ h2 => h2.2), schedFinal_mono cs ns h⟩

/-- C8 witness: three chunks of durations [1, 2, 1] whose handling-time
clock values vary, starting from playback clock 0. -/
theorem audio_scheduler_invariants_witness :
    schedStart 3 ⟨2, 1⟩ = max 3 (⟨2, 1⟩ : Chunk).t ∧
    List.Chain' (fun p q : ℚ × ℚ => p.1 + p.2 ≤ q.1)
      (schedPairs 0 [⟨0, 1⟩, ⟨3, 2⟩, ⟨4, 1⟩]) ∧
    List.Chain' (fun p q : ℚ × ℚ => p.1 ≤ q.1)
      (schedPairs 0 [⟨0, 1⟩, ⟨3, 2⟩, ⟨4, 1⟩]) ∧
    (0 : ℚ) ≤ schedFinal 0 [⟨0, 1⟩, ⟨3, 2⟩, ⟨4, 1⟩] :=
  audio_scheduler_invariants 0 3 ⟨2, 1⟩ [⟨0, 1⟩, ⟨3, 2⟩, ⟨4, 1⟩] (by decide)
